import Mathlib

/-!
# Verification of the air-quality aggregation and forecasting service

Shallow embedding of the JavaScript services of the repository
(`services/AirQualityService.js`, `services/ForecastService.js`,
`services/TempoDataService.js`, `services/WeatherService.js` which also
contains `NotificationService`) together with proofs and refutations of
the specification's claims.

Modelling conventions:
* JavaScript numbers are modelled as `ℚ` wherever the code only performs
  field arithmetic and comparisons, and as `ℝ` where transcendental
  functions (`Math.sin`, `Math.cos`, `Math.atan2`, `Math.sqrt`) occur.
* `Math.round x` is `⌊x + 1/2⌋` (JavaScript rounds half-way cases toward
  positive infinity).
* Timestamps are integers (milliseconds since the epoch); `moment().diff(t,
  hours)` truncates toward zero, i.e. `Int.tdiv` of the millisecond
  difference by 3600000.
* JavaScript objects used as string-keyed dictionaries are association
  lists: assignment to an existing key replaces the entry in place,
  assignment to a fresh key appends.
* `undefined` / absent fields become `Option`; the `x || d` default idiom
  on numbers maps `none` and `some 0` (the falsy values) to the default.
-/

/-- JavaScript `Math.round`: round half up (toward `+∞`). -/
def jsRound (x : ℚ) : ℤ := ⌊x + 1/2⌋

/-- ASCII lower-casing of a character, as `String.prototype.toLowerCase`
acts on the ASCII range (the only range the data uses). -/
def charToLower (c : Char) : Char :=
  if 'A' ≤ c ∧ c ≤ 'Z' then Char.ofNat (c.toNat + 32) else c

/-- `String.prototype.toLowerCase` on ASCII strings. -/
def toLowerCase (s : String) : String := ⟨s.data.map charToLower⟩

/-- Lookup in a JavaScript object modelled as an association list
(`obj[k]`, yielding `undefined` as `none`). -/
def objGet (m : List (String × α)) (k : String) : Option α :=
  (m.find? (fun e => e.1 = k)).map (fun e => e.2)

/-- Assignment `obj[k] = v` on a JavaScript object: replace in place if the
key exists, otherwise append (JavaScript preserves insertion order). -/
def objSet (m : List (String × α)) (k : String) (v : α) : List (String × α) :=
  match m with
  | [] => [(k, v)]
  | e :: rest => if e.1 = k then (k, v) :: rest else e :: objSet rest k v

/-- `moment(now).diff(moment(t), 'hours')` for millisecond timestamps:
truncating division of the difference by one hour. -/
def jsDiffHours (now t : ℤ) : ℤ := (now - t).tdiv 3600000

namespace OpenAQService

/-- One row of an EPA breakpoint table, as in the `aqiBreakpoints` object of
`TempoDataService.js` (`calculateOverallAQI`). -/
structure Breakpoint where
  aqiLow : ℚ
  aqiHigh : ℚ
  concLow : ℚ
  concHigh : ℚ
deriving DecidableEq

/-- `OpenAQService.calculatePollutantAQI` (`TempoDataService.js` lines
941-952): scan the rows; on the first row with `concLow ≤ c ≤ concHigh`
interpolate linearly, round, and cap at 500; if no row matches, return 500
(the code comments this fall-through as the above-highest-breakpoint case,
but it also fires for concentrations in the gaps between rows). -/
def calculatePollutantAQI (c : ℚ) : List Breakpoint → ℤ
  | [] => 500
  | bp :: rest =>
    if bp.concLow ≤ c ∧ c ≤ bp.concHigh then
      min (jsRound ((bp.aqiHigh - bp.aqiLow) / (bp.concHigh - bp.concLow) * (c - bp.concLow) + bp.aqiLow)) 500
    else calculatePollutantAQI c rest

/-- PM2.5 rows of `aqiBreakpoints` (`TempoDataService.js` lines 870-878). -/
def pm25Breakpoints : List Breakpoint :=
  [⟨0, 50, 0, 12⟩, ⟨51, 100, 121/10, 354/10⟩, ⟨101, 150, 355/10, 554/10⟩,
   ⟨151, 200, 555/10, 1504/10⟩, ⟨201, 300, 1505/10, 2504/10⟩,
   ⟨301, 400, 2505/10, 3504/10⟩, ⟨401, 500, 3505/10, 5004/10⟩]

/-- PM10 rows of `aqiBreakpoints`. -/
def pm10Breakpoints : List Breakpoint :=
  [⟨0, 50, 0, 54⟩, ⟨51, 100, 55, 154⟩, ⟨101, 150, 155, 254⟩,
   ⟨151, 200, 255, 354⟩, ⟨201, 300, 355, 424⟩, ⟨301, 400, 425, 504⟩,
   ⟨401, 500, 505, 604⟩]

/-- O3 rows of `aqiBreakpoints`. -/
def o3Breakpoints : List Breakpoint :=
  [⟨0, 50, 0, 54⟩, ⟨51, 100, 55, 70⟩, ⟨101, 150, 71, 85⟩,
   ⟨151, 200, 86, 105⟩, ⟨201, 300, 106, 200⟩]

/-- NO2 rows of `aqiBreakpoints`. -/
def no2Breakpoints : List Breakpoint :=
  [⟨0, 50, 0, 53⟩, ⟨51, 100, 54, 100⟩, ⟨101, 150, 101, 360⟩,
   ⟨151, 200, 361, 649⟩, ⟨201, 300, 650, 1249⟩, ⟨301, 400, 1250, 1649⟩,
   ⟨401, 500, 1650, 2049⟩]

/-- SO2 rows of `aqiBreakpoints`. -/
def so2Breakpoints : List Breakpoint :=
  [⟨0, 50, 0, 35⟩, ⟨51, 100, 36, 75⟩, ⟨101, 150, 76, 185⟩,
   ⟨151, 200, 186, 304⟩, ⟨201, 300, 305, 604⟩]

/-- CO rows of `aqiBreakpoints`. -/
def coBreakpoints : List Breakpoint :=
  [⟨0, 50, 0, 44/10⟩, ⟨51, 100, 45/10, 94/10⟩, ⟨101, 150, 95/10, 124/10⟩,
   ⟨151, 200, 125/10, 154/10⟩, ⟨201, 300, 155/10, 304/10⟩,
   ⟨301, 400, 305/10, 404/10⟩, ⟨401, 500, 405/10, 504/10⟩]

/-- The `aqiBreakpoints` table keyed by lower-cased pollutant name. -/
def aqiBreakpoints (name : String) : Option (List Breakpoint) :=
  if name = "pm25" then some pm25Breakpoints
  else if name = "pm10" then some pm10Breakpoints
  else if name = "o3" then some o3Breakpoints
  else if name = "no2" then some no2Breakpoints
  else if name = "so2" then some so2Breakpoints
  else if name = "co" then some coBreakpoints
  else none

end OpenAQService

namespace AirQualityService

/-- `AirQualityService.getAQILevel` (`AirQualityService.js` lines 241-248). -/
def getAQILevel (aqi : ℚ) : String :=
  if aqi ≤ 50 then "good"
  else if aqi ≤ 100 then "moderate"
  else if aqi ≤ 150 then "unhealthy-sensitive"
  else if aqi ≤ 200 then "unhealthy"
  else if aqi ≤ 300 then "very-unhealthy"
  else "hazardous"

/-- `getAQILevel(station.AQI)` where `station.AQI` may be `undefined`: in
JavaScript every `<=` comparison against `undefined` is false, so the
final `return` fires and the result is `"hazardous"`. -/
def getAQILevelOpt (aqi : Option ℚ) : String :=
  match aqi with
  | some a => getAQILevel a
  | none => "hazardous"

/-- The `thresholds` table of `AirQualityService.assessQuality`
(good, moderate, unhealthy limits per lower-cased pollutant name). -/
def assessThresholds (p : String) : Option (ℚ × ℚ × ℚ) :=
  if p = "pm2.5" then some (12, 35, 55)
  else if p = "pm10" then some (54, 154, 254)
  else if p = "o3" then some (54, 70, 85)
  else if p = "no2" then some (53, 100, 360)
  else if p = "so2" then some (35, 75, 185)
  else if p = "co" then some (44/10, 94/10, 124/10)
  else none

/-- `AirQualityService.assessQuality` (lines 256-273). -/
def assessQuality (pollutant : String) (concentration : ℚ) : String :=
  match assessThresholds (toLowerCase pollutant) with
  | none => "unknown"
  | some (g, m, u) =>
    if concentration ≤ g then "good"
    else if concentration ≤ m then "moderate"
    else if concentration ≤ u then "unhealthy"
    else "hazardous"

/-- `AirQualityService.concentrationToAQI` (lines 223-234): the local
`thresholds` table in the source is dead code; the function returns
`Math.round(concentration * 2)` for every unit. -/
def concentrationToAQI (concentration : ℚ) (unit : String) : ℤ :=
  jsRound (concentration * 2)

/-- One entry of `processed.pollutants`. EPA-derived entries carry the
station's `AQI` field (possibly `undefined`); OpenAQ-derived entries have
no `aqi` field at all, which is also modelled as `none`. -/
structure PollutantEntry where
  concentration : ℚ
  unit : String
  quality : String
  aqi : Option ℚ
  source : String
deriving DecidableEq

/-- One entry of `processed.stations`. EPA pushes carry a `distance`
(defaulted to 0 by `station.distance || 0`); OpenAQ pushes have none. -/
structure StationEntry where
  id : String
  name : String
  distance : Option ℚ
  lat : Option ℚ
  lng : Option ℚ
deriving DecidableEq

/-- One station record of an EPA AirNow payload, with the fields
`processGroundBasedData` reads. -/
structure EPAStation where
  ReportingArea : String
  Latitude : ℚ
  Longitude : ℚ
  distance : Option ℚ
  ParameterName : Option String
  Value : ℚ
  Unit : String
  AQI : Option ℚ

/-- One measurement of an OpenAQ payload's `results` array, with the
fields `processGroundBasedData` reads. -/
structure OAQMeasurement where
  parameter : String
  value : ℚ
  unit : String
  location : Option String
  latitude : Option ℚ
  longitude : Option ℚ

/-- The `processed` record built by `processGroundBasedData`. -/
structure Processed where
  timestamp : ℤ
  sources : List String
  pollutants : List (String × PollutantEntry)
  aqi : Option ℚ
  stations : List StationEntry
  overallQuality : String

/-- JavaScript truthiness of a numeric field that may be `null` /
`undefined`: falsy exactly when absent or zero. -/
def jsTruthy (o : Option ℚ) : Bool :=
  match o with
  | none => false
  | some x => x != 0

/-- `x || 0` on a possibly-absent number. -/
def jsOrZero (o : Option ℚ) : ℚ :=
  match o with
  | none => 0
  | some x => x

/-- The body of the EPA `forEach` in `processGroundBasedData`
(`AirQualityService.js` lines 126-154): push source and station, write the
pollutant entry under the lower-cased `ParameterName` (overwriting any
earlier EPA entry for the same key), and raise `processed.aqi` to
`station.AQI` when that is truthy and larger (or `processed.aqi` is falsy). -/
def processEPAStation (acc : Processed) (st : EPAStation) : Processed :=
  let acc := { acc with
    sources := acc.sources ++ ["EPA AirNow"],
    stations := acc.stations ++
      [⟨st.ReportingArea, st.ReportingArea, some (jsOrZero st.distance),
        some st.Latitude, some st.Longitude⟩] }
  let acc :=
    match st.ParameterName with
    | some pname =>
      let entry : PollutantEntry := ⟨st.Value, st.Unit, getAQILevelOpt st.AQI, st.AQI, "EPA"⟩
      { acc with pollutants := objSet acc.pollutants (toLowerCase pname) entry }
    | none => acc
  match st.AQI with
  | none => acc
  | some a =>
    if a ≠ 0 ∧ (¬ jsTruthy acc.aqi ∨ ∃ b, acc.aqi = some b ∧ b < a) then
      { acc with aqi := some a }
    else acc

/-- The body of the OpenAQ `forEach` in `processGroundBasedData` (lines
159-183): push source, write the pollutant entry under the lower-cased
`parameter` ONLY if that key is not yet present, and push a station when
`measurement.location` is truthy. -/
def processOAQMeasurement (acc : Processed) (meas : OAQMeasurement) : Processed :=
  let acc := { acc with sources := acc.sources ++ ["OpenAQ"] }
  let pollutant := toLowerCase meas.parameter
  let acc :=
    match objGet acc.pollutants pollutant with
    | none =>
      let entry : PollutantEntry :=
        ⟨meas.value, meas.unit, assessQuality pollutant meas.value, none, "OpenAQ"⟩
      { acc with pollutants := objSet acc.pollutants pollutant entry }
    | some _ => acc
  match meas.location with
  | some loc =>
    { acc with stations := acc.stations ++ [⟨loc, loc, none, meas.latitude, meas.longitude⟩] }
  | none => acc

/-- `AirQualityService.calculateOverallAQI` (lines 201-215): collect
`pollutant.aqi` when truthy, otherwise the converted
`concentrationToAQI` value when truthy, and return the maximum (0 when
nothing was collected). -/
def calculateOverallAQI (pollutants : List (String × PollutantEntry)) : ℚ :=
  let aqiValues := pollutants.foldl (fun acc e =>
    match e.2.aqi with
    | some a => if a = 0 then convStep acc e else acc ++ [a]
    | none => convStep acc e) []
  match aqiValues with
  | [] => 0
  | x :: xs => xs.foldl max x
where
  /-- The `else` branch: convert and push only when the result is truthy. -/
  convStep (acc : List ℚ) (e : String × PollutantEntry) : List ℚ :=
    let a : ℚ := (concentrationToAQI e.2.concentration e.2.unit : ℚ)
    if a = 0 then acc else acc ++ [a]

/-- The EPA phase of `processGroundBasedData`: runs only when the payload
is a (present) array. -/
def epaPhase (epa : Option (List EPAStation)) (p : Processed) : Processed :=
  match epa with
  | some stations => stations.foldl processEPAStation p
  | none => p

/-- The OpenAQ phase of `processGroundBasedData`: runs only when the
payload with its `results` array is present. -/
def openAQPhase (openAQ : Option (List OAQMeasurement)) (p : Processed) : Processed :=
  match openAQ with
  | some results => results.foldl processOAQMeasurement p
  | none => p

/-- `AirQualityService.processGroundBasedData` (lines 115-194). `now`
stands for `new Date()` at entry. -/
def processGroundBasedData (epa : Option (List EPAStation))
    (openAQ : Option (List OAQMeasurement)) (now : ℤ) : Processed :=
  let processed : Processed := ⟨now, [], [], none, [], ""⟩
  let processed := epaPhase epa processed
  let processed := openAQPhase openAQ processed
  let processed :=
    if jsTruthy processed.aqi then processed
    else { processed with aqi := some (calculateOverallAQI processed.pollutants) }
  { processed with overallQuality := getAQILevelOpt processed.aqi }

end AirQualityService

namespace ForecastService

/-- `ForecastService.getAQILevel` (`ForecastService.js` lines 397-404);
textually identical to `AirQualityService.getAQILevel`. -/
def getAQILevel (aqi : ℚ) : String :=
  if aqi ≤ 50 then "good"
  else if aqi ≤ 100 then "moderate"
  else if aqi ≤ 150 then "unhealthy-sensitive"
  else if aqi ≤ 200 then "unhealthy"
  else if aqi ≤ 300 then "very-unhealthy"
  else "hazardous"

/-- The `thresholds` table of `ForecastService.concentrationToAQI`
(lines 374-381), keyed by the exact (case-sensitive) pollutant name. -/
def aqiThresholds (p : String) : Option (ℚ × ℚ × ℚ) :=
  if p = "NO2" then some (20, 40, 100)
  else if p = "O3" then some (50, 100, 200)
  else if p = "SO2" then some (30, 60, 150)
  else if p = "HCHO" then some (10, 20, 50)
  else if p = "PM2.5" then some (12, 35, 55)
  else if p = "PM10" then some (54, 154, 254)
  else none

/-- `ForecastService.concentrationToAQI` (lines 372-390): a piecewise
linear scale with no upper cap — above the `unhealthy` threshold it
returns `round(150 + (c - unhealthy) * 1.5)`, unbounded. -/
def concentrationToAQI (concentration : ℚ) (pollutant : String) : ℤ :=
  match aqiThresholds pollutant with
  | none => 0
  | some (g, m, u) =>
    if concentration ≤ g then jsRound (concentration * (5/2))
    else if concentration ≤ m then jsRound (50 + (concentration - g) * (5/2))
    else if concentration ≤ u then jsRound (100 + (concentration - m) * 2)
    else jsRound (150 + (concentration - u) * (3/2))

/-- `ForecastService.getBaseConcentration` (lines 318-329). -/
def getBaseConcentration (pollutant : String) : ℚ :=
  if pollutant = "NO2" then 20
  else if pollutant = "O3" then 50
  else if pollutant = "SO2" then 10
  else if pollutant = "HCHO" then 5
  else if pollutant = "PM2.5" then 15
  else if pollutant = "PM10" then 25
  else 10

/-- One element of a per-pollutant prediction array. The concentration
type is a parameter: `ℝ` where it is produced by `statisticalForecast`
(whose trend term uses `Math.sin`), `ℚ` where only field arithmetic is
involved. -/
structure HourPrediction (α : Type) where
  hour : ℕ
  concentration : α
  timestamp : ℤ
  method : String

/-- `ForecastService.statisticalForecast` (lines 292-311). `rng i` is the
value returned by the `i`-th call of the UNSEEDED `Math.random()` (one
call per forecast hour, each value in `[0, 1)`); `now` is the clock at
generation time. -/
noncomputable def statisticalForecast (rng : ℕ → ℝ) (now : ℤ) (pollutant : String)
    (hours : ℕ) : List (HourPrediction ℝ) :=
  (List.range hours).map (fun i =>
    let h : ℕ := i + 1
    let trend := Real.sin ((h : ℝ) * Real.pi / 12) * (1/10)
    let randomVariation := (rng i - 1/2) * (1/5)
    let concentration := max 0 ((getBaseConcentration pollutant : ℝ) * (1 + trend + randomVariation))
    ⟨h, concentration, now + (h : ℤ) * 3600000, "statistical"⟩)

/-- One element of the AQI forecast array built by `calculateAQIForecast`. -/
structure AqiPrediction where
  hour : ℕ
  aqi : ℤ
  level : String
  timestamp : ℤ

/-- `ForecastService.calculateAQIForecast` (lines 336-364): for each hour
slot take, over all pollutants that have a prediction there, the truthy
(non-zero) converted AQI values and emit their maximum (0 when none). -/
def calculateAQIForecast (forecasts : List (String × List (HourPrediction ℚ)))
    (now : ℤ) : List AqiPrediction :=
  let maxHours := (forecasts.map (fun f => f.2.length)).foldl max 0
  (List.range maxHours).map (fun h =>
    let aqiValues := forecasts.foldl (fun acc f =>
      match f.2.get? h with
      | some pred =>
        let aqi := concentrationToAQI pred.concentration f.1
        if aqi = 0 then acc else acc ++ [aqi]
      | none => acc) []
    let maxAQI : ℤ :=
      match aqiValues with
      | [] => 0
      | x :: xs => xs.foldl max x
    ⟨h + 1, maxAQI, getAQILevel (maxAQI : ℚ), now + ((h : ℤ) + 1) * 3600000⟩)

end ForecastService

namespace NotificationService

/-- The `aqi` part of `alertThresholds` (`WeatherService.js` lines 422-427). -/
structure AqiThresholds where
  warning : ℚ
  critical : ℚ
  emergency : ℚ
deriving DecidableEq

/-- One entry of the `pollutants` part of `alertThresholds`. -/
structure PollutantThreshold where
  warning : ℚ
  critical : ℚ
deriving DecidableEq

/-- The default `alertThresholds.aqi` of the constructor. -/
def defaultAqiThresholds : AqiThresholds := ⟨100, 150, 200⟩

/-- The default `alertThresholds.pollutants` of the constructor. -/
def defaultPollutantThresholds : List (String × PollutantThreshold) :=
  [("NO2", ⟨40, 100⟩), ("O3", ⟨100, 200⟩), ("SO2", ⟨60, 150⟩),
   ("HCHO", ⟨20, 50⟩), ("PM2.5", ⟨35, 55⟩), ("PM10", ⟨154, 254⟩)]

/-- The stored `subscription.preferences` record. -/
structure Preferences where
  aqiThresholds : AqiThresholds
  pollutantThresholds : List (String × PollutantThreshold)
  notificationMethods : List String
  email : Option String
  phone : Option String
  enabled : Bool

/-- The stored `subscription.location` record. -/
structure SubLocation where
  lat : ℚ
  lng : ℚ
  radius : ℚ

/-- A stored subscription (`subscribeToLocation`, lines 448-465). -/
structure Subscription where
  userId : String
  location : SubLocation
  preferences : Preferences
  subscribedAt : ℤ
  lastNotification : Option ℤ

/-- The caller-supplied `location` argument of `subscribeToLocation`
(`radius` may be absent). -/
structure LocationInput where
  lat : ℚ
  lng : ℚ
  radius : Option ℚ

/-- The caller-supplied `preferences` argument of `subscribeToLocation`
(every field may be absent; defaults are applied by `||`). -/
structure PreferencesInput where
  aqiThresholds : Option AqiThresholds
  pollutantThresholds : Option (List (String × PollutantThreshold))
  methods : Option (List String)
  email : Option String
  phone : Option String
  enabled : Option Bool

/-- `x || d` on a possibly-absent number: `undefined` AND `0` are falsy,
so both fall back to the default. -/
def jsOrNum (o : Option ℚ) (d : ℚ) : ℚ :=
  match o with
  | none => d
  | some x => if x = 0 then d else x

/-- `NotificationService.subscribeToLocation` (`WeatherService.js` lines
447-469): build a fresh subscription record — `lastNotification: null`
unconditionally — and store it with `this.subscribers.set(userId, ...)`,
overwriting any existing subscription for the same id. `now` models
`new Date()`. -/
def subscribeToLocation (subscribers : List (String × Subscription)) (userId : String)
    (location : LocationInput) (preferences : PreferencesInput) (now : ℤ) :
    List (String × Subscription) :=
  let subscription : Subscription := {
    userId := userId
    location := ⟨location.lat, location.lng, jsOrNum location.radius 25⟩
    preferences := {
      aqiThresholds := preferences.aqiThresholds.getD defaultAqiThresholds
      pollutantThresholds := preferences.pollutantThresholds.getD defaultPollutantThresholds
      notificationMethods := preferences.methods.getD ["websocket", "email"]
      email := preferences.email
      phone := preferences.phone
      enabled := preferences.enabled != some false }
    subscribedAt := now
    lastNotification := none }
  objSet subscribers userId subscription

/-- An alert object as passed to `sendAlerts`. -/
structure Alert where
  type : String
  severity : String
  message : String
  timestamp : ℤ
deriving DecidableEq

/-- The synthetic alert built by `testNotification` (lines 864-869). -/
def testAlert (now : ℤ) : Alert :=
  ⟨"test", "info",
   "This is a test notification from NASA TEMPO Air Quality Forecast System", now⟩

/-- What one passed-cooldown `sendAlerts` call emits: which channels fire
(WebSocket always when enabled in `notificationMethods`; email/SMS also
need an address/phone on file) and the alerts delivered. -/
structure Emission where
  websocket : Bool
  email : Bool
  sms : Bool
  alerts : List Alert
deriving DecidableEq

/-- `NotificationService.sendAlerts` (lines 637-678): skip everything when
the last notification is less than one (truncated) hour old; otherwise
emit on the enabled channels and set `lastNotification = now`. Returns
the emission (`none` = nothing sent) and the updated subscription. -/
def sendAlerts (sub : Subscription) (alerts : List Alert) (now : ℤ) :
    Option Emission × Subscription :=
  let skip : Bool :=
    match sub.lastNotification with
    | some t => jsDiffHours now t < 1
    | none => false
  if skip then (none, sub)
  else
    let em : Emission := {
      websocket := sub.preferences.notificationMethods.contains "websocket"
      email := sub.preferences.notificationMethods.contains "email" && sub.preferences.email.isSome
      sms := sub.preferences.notificationMethods.contains "sms" && sub.preferences.phone.isSome
      alerts := alerts }
    (some em, { sub with lastNotification := some now })

/-- `NotificationService.testNotification` (lines 861-873): when the id is
subscribed, push one synthetic info alert through `sendAlerts` (which
still enforces the cooldown). -/
def testNotification (subscribers : List (String × Subscription)) (userId : String)
    (now : ℤ) : Option Emission × List (String × Subscription) :=
  match objGet subscribers userId with
  | none => (none, subscribers)
  | some sub =>
    let r := sendAlerts sub [testAlert now] now
    (r.1, objSet subscribers userId r.2)

/-- JavaScript `Math.atan2`. -/
noncomputable def atan2 (y x : ℝ) : ℝ :=
  if 0 < x then Real.arctan (y / x)
  else if x < 0 ∧ 0 ≤ y then Real.arctan (y / x) + Real.pi
  else if x < 0 ∧ y < 0 then Real.arctan (y / x) - Real.pi
  else if x = 0 ∧ 0 < y then Real.pi / 2
  else if x = 0 ∧ y < 0 then -(Real.pi / 2)
  else 0

/-- `NotificationService.calculateDistance` (lines 534-543): haversine
distance in kilometres on a sphere of radius 6371 km. -/
noncomputable def calculateDistance (lat1 lng1 lat2 lng2 : ℚ) : ℝ :=
  let R : ℝ := 6371
  let dLat : ℝ := ((lat2 : ℝ) - (lat1 : ℝ)) * Real.pi / 180
  let dLng : ℝ := ((lng2 : ℝ) - (lng1 : ℝ)) * Real.pi / 180
  let a := Real.sin (dLat / 2) * Real.sin (dLat / 2) +
    Real.cos ((lat1 : ℝ) * Real.pi / 180) * Real.cos ((lat2 : ℝ) * Real.pi / 180) *
      Real.sin (dLng / 2) * Real.sin (dLng / 2)
  let c := 2 * atan2 (Real.sqrt a) (Real.sqrt (1 - a))
  R * c

/-- The location of one forecast, as read by `getRelevantForecasts`. -/
structure ForecastLoc where
  lat : ℚ
  lng : ℚ
deriving DecidableEq

/-- `NotificationService.getRelevantForecasts` (lines 516-524): keep the
forecasts whose distance to the subscriber's location is at most the
subscriber's radius. -/
noncomputable def getRelevantForecasts (forecasts : List ForecastLoc)
    (location : SubLocation) : List ForecastLoc :=
  forecasts.filter (fun f =>
    calculateDistance location.lat location.lng f.lat f.lng ≤ (location.radius : ℝ))

end NotificationService

/-! ## Concrete inputs used by the claim-level theorems -/

/-- S3 scenario, EPA side: a station reporting `PM2.5 = 15` at 8000 m,
with no `AQI` field. -/
def AirQualityService.epaStationS3 : AirQualityService.EPAStation :=
  ⟨"Downtown", 40, -74, some 8000, some "PM2.5", 15, "UG/M3", none⟩

/-- S3 scenario, OpenAQ side: a measurement reporting `PM2.5 = 22` from a
station 2000 m away (`processGroundBasedData` never reads a distance off
an OpenAQ measurement, so the record carries what it does read). -/
def AirQualityService.oaqMeasurementS3 : AirQualityService.OAQMeasurement :=
  ⟨"PM2.5", 22, "ug/m3", some "OpenAQ Station A", some 40, some (-74)⟩

/-- A freshly subscribed subscriber (all preference defaults, never yet
notified), as `subscribeToLocation` would store it. -/
def NotificationService.freshSub : NotificationService.Subscription :=
  { userId := "user1"
    location := ⟨0, 0, 25⟩
    preferences := {
      aqiThresholds := NotificationService.defaultAqiThresholds
      pollutantThresholds := NotificationService.defaultPollutantThresholds
      notificationMethods := ["websocket", "email"]
      email := none
      phone := none
      enabled := true }
    subscribedAt := 0
    lastNotification := none }

/-- A subscriber whose last dispatch happened at t = 999400000 ms, ten
minutes before the clock value 1000000000 used against it. -/
def NotificationService.recentSub : NotificationService.Subscription :=
  { NotificationService.freshSub with lastNotification := some 999400000 }

/-- A subscriber that was already dispatched to at t = 5, used to observe
what re-subscribing does to `lastNotification`. -/
def NotificationService.dispatchedSub : NotificationService.Subscription :=
  { NotificationService.freshSub with lastNotification := some 5 }

/-! ## Helper lemmas -/

theorem objGet_objSet_self (m : List (String × α)) (k : String) (v : α) :
    objGet (objSet m k v) k = some v := by
  induction m with
  | nil => simp [objGet, objSet, List.find?]
  | cons e rest ih =>
    by_cases h : e.1 = k
    · simp [objGet, objSet, h, List.find?]
    · simpa [objGet, objSet, h, List.find?] using ih

theorem objGet_objSet_of_ne (m : List (String × α)) (k k' : String) (v : α)
    (hk : k ≠ k') : objGet (objSet m k' v) k = objGet m k := by
  have hk' : ¬ (k' = k) := fun hc => hk hc.symm
  induction m with
  | nil => simp [objGet, objSet, List.find?, hk']
  | cons e rest ih =>
    by_cases h : e.1 = k'
    · have hek : ¬ e.1 = k := fun hc => hk (hc.symm.trans h)
      simp [objGet, objSet, List.find?, h, hek, hk']
    · by_cases hek : e.1 = k
      · simp [objGet, objSet, List.find?, h, hek, hk]
      · simpa [objGet, objSet, List.find?, h, hek] using ih

theorem NotificationService.calculateDistance_self (la ln : ℚ) :
    NotificationService.calculateDistance la ln la ln = 0 := by
  simp only [NotificationService.calculateDistance, NotificationService.atan2]
  norm_num [Real.sqrt_one, Real.arctan_zero]

/-! ## Claim theorems -/

/-- Claim C5: for a PM2.5 concentration of exactly 20.0 μg/m³ the EPA
breakpoint interpolation of `OpenAQService.calculatePollutantAQI` over the
row 12.1-35.4 → 51-100 yields AQI 68. -/
theorem C5_pm25_spot_check :
    OpenAQService.calculatePollutantAQI 20 OpenAQService.pm25Breakpoints = 68 := by
  norm_num [OpenAQService.calculatePollutantAQI, OpenAQService.pm25Breakpoints, jsRound]

/-- Claim C3 (refuting evaluation): `calculatePollutantAQI` is NOT monotone
non-decreasing on the PM2.5 table. At `c = 12.05`, inside the gap between
the rows ending at 12.0 and starting at 12.1, no row matches and the
fall-through `return 500` fires (the code comments that line as the
above-highest-breakpoint case), while `c = 12.1` maps to 51. -/
theorem C3_gap_breaks_monotonicity :
    OpenAQService.calculatePollutantAQI (241/20) OpenAQService.pm25Breakpoints = 500 ∧
    OpenAQService.calculatePollutantAQI (121/10) OpenAQService.pm25Breakpoints = 51 ∧
    (241 : ℚ)/20 ≤ 121/10 ∧
    ¬ (OpenAQService.calculatePollutantAQI (241/20) OpenAQService.pm25Breakpoints ≤
       OpenAQService.calculatePollutantAQI (121/10) OpenAQService.pm25Breakpoints) := by
  refine ⟨?_, ?_, by norm_num, ?_⟩ <;>
    norm_num [OpenAQService.calculatePollutantAQI, OpenAQService.pm25Breakpoints, jsRound]

/-- Claim C10: the AQI-to-level mapping (identical in
`AirQualityService.getAQILevel` and `ForecastService.getAQILevel`) is total:
for every rational input it returns exactly one of the six level strings,
the two copies agree, and every input ≤ 50 — negative inputs included —
maps to "good". -/
theorem C10_getAQILevel_total (aqi : ℚ) :
    (ForecastService.getAQILevel aqi = "good" ∨
     ForecastService.getAQILevel aqi = "moderate" ∨
     ForecastService.getAQILevel aqi = "unhealthy-sensitive" ∨
     ForecastService.getAQILevel aqi = "unhealthy" ∨
     ForecastService.getAQILevel aqi = "very-unhealthy" ∨
     ForecastService.getAQILevel aqi = "hazardous") ∧
    AirQualityService.getAQILevel aqi = ForecastService.getAQILevel aqi ∧
    (aqi ≤ 50 → ForecastService.getAQILevel aqi = "good") := by
  unfold ForecastService.getAQILevel AirQualityService.getAQILevel
  refine ⟨?_, rfl, ?_⟩
  · split_ifs <;> simp
  · intro h
    simp [h]

/-- Witness for C10 at the concrete input `-5`: the hypothesis `-5 ≤ 50`
holds and both copies return "good". -/
theorem C10_getAQILevel_total_witness :
    ((-5 : ℚ) ≤ 50) ∧ ForecastService.getAQILevel (-5) = "good" ∧
    AirQualityService.getAQILevel (-5) = ForecastService.getAQILevel (-5) :=
  ⟨by norm_num, (C10_getAQILevel_total (-5)).2.2 (by norm_num),
   (C10_getAQILevel_total (-5)).2.1⟩

/-- Claim C4 (counterexample): `ForecastService.concentrationToAQI` has no
upper cap. At PM2.5 concentration 1000 it returns
`round(150 + (1000 - 55) * 1.5) = 1568 > 500`, and `calculateAQIForecast`
passes that value straight into the `AqiPrediction`. -/
theorem C4_counterexample :
    ForecastService.concentrationToAQI 1000 "PM2.5" = 1568 ∧
    ¬ (ForecastService.concentrationToAQI 1000 "PM2.5" ≤ 500) ∧
    (ForecastService.calculateAQIForecast
        [("PM2.5", [⟨1, 1000, 3600000, "statistical"⟩])] 0).map
      (fun p => p.aqi) = [1568] := by
  have hth : ForecastService.aqiThresholds "PM2.5" = some (12, 35, 55) := by rfl
  have h1 : ForecastService.concentrationToAQI 1000 "PM2.5" = 1568 := by
    simp only [ForecastService.concentrationToAQI, hth]
    norm_num [jsRound]
  refine ⟨h1, by rw [h1]; norm_num, ?_⟩
  simp [ForecastService.calculateAQIForecast, List.range_succ, h1]

/-- Claim C4 (amended): the lower bound survives — for every pollutant and
non-negative concentration `concentrationToAQI` is ≥ 0 (the claimed upper
bound 500 is refuted by `C4_counterexample`). -/
theorem C4_concentrationToAQI_nonneg (p : String) (c : ℚ) (h : 0 ≤ c) :
    0 ≤ ForecastService.concentrationToAQI c p := by
  unfold ForecastService.concentrationToAQI
  cases hp : ForecastService.aqiThresholds p with
  | none => simp
  | some t =>
    obtain ⟨g, m, u⟩ := t
    simp only [jsRound]
    split_ifs with h1 h2 h3
    · exact Int.le_floor.mpr (by push_cast; linarith)
    · exact Int.le_floor.mpr (by push_cast; nlinarith)
    · exact Int.le_floor.mpr (by push_cast; nlinarith)
    · exact Int.le_floor.mpr (by push_cast; nlinarith)

/-- Witness for C4 (amended) at PM2.5 concentration 3. -/
theorem C4_concentrationToAQI_nonneg_witness :
    (0 : ℚ) ≤ 3 ∧ 0 ≤ ForecastService.concentrationToAQI 3 "PM2.5" :=
  ⟨by norm_num, C4_concentrationToAQI_nonneg "PM2.5" 3 (by norm_num)⟩

theorem objGet_objSet_mono (m : List (String × α)) (k k' : String) (v : α) (e : α)
    (h : objGet m k = some e) (hn : objGet m k' = none) :
    objGet (objSet m k' v) k = some e := by
  have hk : k ≠ k' := by
    intro hc
    rw [hc, hn] at h
    cases h
  rw [objGet_objSet_of_ne _ _ _ _ hk]
  exact h

theorem AirQualityService.processOAQMeasurement_preserves
    (p : AirQualityService.Processed) (meas : AirQualityService.OAQMeasurement)
    (k : String) (e : AirQualityService.PollutantEntry)
    (h : objGet p.pollutants k = some e) :
    objGet (AirQualityService.processOAQMeasurement p meas).pollutants k = some e := by
  cases hloc : meas.location with
  | none =>
    cases hg : objGet p.pollutants (toLowerCase meas.parameter) with
    | none =>
      simp only [AirQualityService.processOAQMeasurement, hloc, hg]
      exact objGet_objSet_mono _ _ _ _ _ h hg
    | some v =>
      simp only [AirQualityService.processOAQMeasurement, hloc, hg]
      exact h
  | some loc =>
    cases hg : objGet p.pollutants (toLowerCase meas.parameter) with
    | none =>
      simp only [AirQualityService.processOAQMeasurement, hloc, hg]
      exact objGet_objSet_mono _ _ _ _ _ h hg
    | some v =>
      simp only [AirQualityService.processOAQMeasurement, hloc, hg]
      exact h

theorem AirQualityService.openAQFold_preserves
    (results : List AirQualityService.OAQMeasurement) (p : AirQualityService.Processed)
    (k : String) (e : AirQualityService.PollutantEntry)
    (h : objGet p.pollutants k = some e) :
    objGet (results.foldl AirQualityService.processOAQMeasurement p).pollutants k = some e := by
  induction results generalizing p with
  | nil => simpa using h
  | cons m rest ih =>
    exact ih _ (AirQualityService.processOAQMeasurement_preserves _ _ _ _ h)

/-- Claim C1 (amended): the canonicalizer does NOT select the measurement
with the smallest `distanceMeters` — it never reads a distance during the
pollutant merge. EPA stations are processed first and an OpenAQ
measurement is stored only when its lower-cased pollutant key is still
absent, so whatever the EPA pass wrote is what the canonical snapshot
reports, whatever the distances. -/
theorem C1_epa_first_wins (epa : List AirQualityService.EPAStation)
    (results : List AirQualityService.OAQMeasurement) (now : ℤ) (k : String)
    (e : AirQualityService.PollutantEntry)
    (h : objGet (AirQualityService.epaPhase (some epa) ⟨now, [], [], none, [], ""⟩).pollutants k
        = some e) :
    objGet (AirQualityService.processGroundBasedData (some epa) (some results) now).pollutants k
      = some e := by
  unfold AirQualityService.processGroundBasedData
  simp only [AirQualityService.openAQPhase]
  have h2 := AirQualityService.openAQFold_preserves results _ k e h
  split <;> simpa using h2

/-- Witness for C1 (amended) at the S3 scenario input: the EPA pass stores
the 15 μg/m³ entry under "pm2.5" and the full pipeline keeps it. -/
theorem C1_epa_first_wins_witness :
    objGet (AirQualityService.epaPhase (some [AirQualityService.epaStationS3])
        ⟨0, [], [], none, [], ""⟩).pollutants "pm2.5"
      = some ⟨15, "UG/M3", "hazardous", none, "EPA"⟩ ∧
    objGet (AirQualityService.processGroundBasedData (some [AirQualityService.epaStationS3])
        (some [AirQualityService.oaqMeasurementS3]) 0).pollutants "pm2.5"
      = some ⟨15, "UG/M3", "hazardous", none, "EPA"⟩ := by
  have hl : toLowerCase "PM2.5" = "pm2.5" := by decide
  have hepa : objGet (AirQualityService.epaPhase (some [AirQualityService.epaStationS3])
      ⟨0, [], [], none, [], ""⟩).pollutants "pm2.5"
      = some ⟨15, "UG/M3", "hazardous", none, "EPA"⟩ := by
    simp [AirQualityService.epaPhase, AirQualityService.processEPAStation,
      AirQualityService.epaStationS3, AirQualityService.getAQILevelOpt, hl, objSet, objGet,
      List.find?]
  exact ⟨hepa, C1_epa_first_wins _ _ _ _ _ hepa⟩

/-- Claim C1 (counterexample): at the S3 input — EPA `PM2.5 = 15` at
8000 m, OpenAQ `PM2.5 = 22` at 2000 m — the canonical pollutant entry has
concentration 15 from source "EPA", not 22 from "OpenAQ": the nearer
OpenAQ station does NOT win. -/
theorem C1_counterexample :
    (objGet (AirQualityService.processGroundBasedData (some [AirQualityService.epaStationS3])
        (some [AirQualityService.oaqMeasurementS3]) 0).pollutants "pm2.5").map
      (fun e => (e.concentration, e.source)) = some ((15 : ℚ), "EPA") ∧
    ¬ ((objGet (AirQualityService.processGroundBasedData (some [AirQualityService.epaStationS3])
        (some [AirQualityService.oaqMeasurementS3]) 0).pollutants "pm2.5").map
      (fun e => (e.concentration, e.source)) = some ((22 : ℚ), "OpenAQ")) := by
  have hl : toLowerCase "PM2.5" = "pm2.5" := by decide
  have hmain : objGet (AirQualityService.processGroundBasedData
      (some [AirQualityService.epaStationS3])
      (some [AirQualityService.oaqMeasurementS3]) 0).pollutants "pm2.5"
      = some ⟨15, "UG/M3", "hazardous", none, "EPA"⟩ := by
    simp [AirQualityService.processGroundBasedData, AirQualityService.epaPhase,
      AirQualityService.openAQPhase, AirQualityService.processEPAStation,
      AirQualityService.processOAQMeasurement, AirQualityService.epaStationS3,
      AirQualityService.oaqMeasurementS3, AirQualityService.getAQILevelOpt, hl,
      objSet, objGet, List.find?, AirQualityService.jsTruthy]
  rw [hmain]
  norm_num

/-- Claim C2 (counterexample): the forecast engine is NOT deterministic in
its inputs. `statisticalForecast` draws its noise from the unseeded
`Math.random()`; two runs with identical location/pollutant/horizon/clock
but different draws — here the possible draw sequences constantly 1/2 and
constantly 3/4, both inside `Math.random()`'s range `[0, 1)` — yield
different hourly concentrations already at hour 1. -/
theorem C2_counterexample :
    ForecastService.statisticalForecast (fun _ => (1:ℝ)/2) 0 "NO2" 1 ≠
    ForecastService.statisticalForecast (fun _ => (3:ℝ)/4) 0 "NO2" 1 := by
  have hbase : ForecastService.getBaseConcentration "NO2" = 20 := by rfl
  intro hEq
  simp only [ForecastService.statisticalForecast, List.range_succ, List.range_zero,
    List.map, List.nil_append, hbase, ForecastService.HourPrediction.mk.injEq,
    List.cons.injEq, and_true, true_and, List.map_nil] at hEq
  generalize hgen : Real.sin (((0 + 1 : ℕ) : ℝ) * Real.pi / 12) = s at hEq
  have hs1 : s ≤ 1 := by rw [← hgen]; exact Real.sin_le_one _
  have hs2 : (-1 : ℝ) ≤ s := by rw [← hgen]; exact Real.neg_one_le_sin _
  push_cast at hEq
  have hA : (0:ℝ) ≤ 20 * (1 + s * (1/10) + ((1:ℝ)/2 - 1/2) * (1/5)) := by nlinarith
  have hB : (0:ℝ) ≤ 20 * (1 + s * (1/10) + ((3:ℝ)/4 - 1/2) * (1/5)) := by nlinarith
  rw [max_eq_right hB, max_eq_right hA] at hEq
  nlinarith [hEq]

/-- Claim C2 (amended): the engine is deterministic only as a function of
inputs AND random draws — two runs with identical location, pollutant,
horizon and clock whose `Math.random()` streams agree on the draws the
horizon consumes produce identical outputs. -/
theorem C2_deterministic_given_rng (rng1 rng2 : ℕ → ℝ) (now : ℤ) (pollutant : String)
    (hours : ℕ) (h : ∀ i < hours, rng1 i = rng2 i) :
    ForecastService.statisticalForecast rng1 now pollutant hours =
    ForecastService.statisticalForecast rng2 now pollutant hours := by
  unfold ForecastService.statisticalForecast
  refine List.map_congr_left (fun i hi => ?_)
  rw [h i (List.mem_range.mp hi)]

/-- Witness for C2 (amended): two streams that agree on the single draw a
1-hour forecast consumes (and differ beyond it) give equal outputs. -/
theorem C2_deterministic_given_rng_witness :
    (∀ i < 1, (fun j => if j = 0 then (1:ℝ)/2 else 1) i = (fun _ => (1:ℝ)/2) i) ∧
    ForecastService.statisticalForecast (fun j => if j = 0 then (1:ℝ)/2 else 1) 0 "NO2" 1 =
      ForecastService.statisticalForecast (fun _ => (1:ℝ)/2) 0 "NO2" 1 := by
  have h : ∀ i < 1, (fun j => if j = 0 then (1:ℝ)/2 else 1) i = (fun _ => (1:ℝ)/2) i := by
    intro i hi
    have hz : i = 0 := by omega
    simp [hz]
  exact ⟨h, C2_deterministic_given_rng _ _ 0 "NO2" 1 h⟩

theorem NotificationService.sendAlerts_skip (sub : NotificationService.Subscription)
    (alerts : List NotificationService.Alert) (now t : ℤ)
    (h : sub.lastNotification = some t) (hd : jsDiffHours now t < 1) :
    NotificationService.sendAlerts sub alerts now = (none, sub) := by
  simp [NotificationService.sendAlerts, h, hd]

theorem NotificationService.sendAlerts_pass_state (sub : NotificationService.Subscription)
    (alerts : List NotificationService.Alert) (now : ℤ)
    (h : (NotificationService.sendAlerts sub alerts now).1.isSome = true) :
    (NotificationService.sendAlerts sub alerts now).2 =
      { sub with lastNotification := some now } := by
  unfold NotificationService.sendAlerts at h ⊢
  cases hl : sub.lastNotification with
  | none => simp [hl]
  | some t =>
    simp only [hl] at h ⊢
    by_cases hd : jsDiffHours now t < 1
    · simp [hd] at h
    · simp [hd]

/-- Claim C6: per-subscriber cooldown. When a dispatch goes out at `t1`,
a second dispatch attempt for the same subscriber less than one hour later
(at `t2`) sends nothing and leaves the stored `lastNotification`
timestamp unchanged — exactly one outbound send across the two calls. -/
theorem C6_cooldown (sub : NotificationService.Subscription)
    (a1 a2 : List NotificationService.Alert) (t1 t2 : ℤ)
    (hsent : (NotificationService.sendAlerts sub a1 t1).1.isSome = true)
    (h0 : 0 ≤ t2 - t1) (h1 : t2 - t1 < 3600000) :
    (NotificationService.sendAlerts (NotificationService.sendAlerts sub a1 t1).2 a2 t2).1 = none ∧
    (NotificationService.sendAlerts (NotificationService.sendAlerts sub a1 t1).2 a2 t2).2 =
      (NotificationService.sendAlerts sub a1 t1).2 := by
  have hst : (NotificationService.sendAlerts sub a1 t1).2 =
      { sub with lastNotification := some t1 } :=
    NotificationService.sendAlerts_pass_state _ _ _ hsent
  have hd : jsDiffHours t2 t1 < 1 := by
    unfold jsDiffHours
    rw [Int.tdiv_eq_zero_of_lt h0 h1]
    norm_num
  have hskip := NotificationService.sendAlerts_skip ((NotificationService.sendAlerts sub a1 t1).2)
    a2 t2 t1 (by rw [hst]) hd
  rw [hskip]
  exact ⟨rfl, rfl⟩

/-- Witness for C6: a fresh subscriber dispatched at t = 0 ms and again at
t = 60000 ms (one minute later). -/
theorem C6_cooldown_witness :
    (NotificationService.sendAlerts NotificationService.freshSub [] 0).1.isSome = true ∧
    (0 : ℤ) ≤ 60000 - 0 ∧ (60000 : ℤ) - 0 < 3600000 ∧
    ((NotificationService.sendAlerts
        (NotificationService.sendAlerts NotificationService.freshSub [] 0).2 [] 60000).1 = none ∧
     (NotificationService.sendAlerts
        (NotificationService.sendAlerts NotificationService.freshSub [] 0).2 [] 60000).2 =
       (NotificationService.sendAlerts NotificationService.freshSub [] 0).2) :=
  ⟨rfl, by norm_num, by norm_num,
   C6_cooldown NotificationService.freshSub [] [] 0 60000 rfl (by norm_num) (by norm_num)⟩

/-- Claim C7 (amended): a subscriber who subscribes with `radiusKm = 0` is
stored with the DEFAULT radius 25 km (`location.radius || 25` treats the
falsy 0 as absent), and is therefore location-matched like any 25 km
subscriber — in particular a forecast at the subscriber's own coordinates
is matched. -/
theorem C7_radius0_becomes_25 (subs : List (String × NotificationService.Subscription))
    (uid : String) (lat lng : ℚ) (prefs : NotificationService.PreferencesInput) (now : ℤ) :
    (objGet (NotificationService.subscribeToLocation subs uid ⟨lat, lng, some 0⟩ prefs now)
        uid).map (fun s => s.location.radius) = some 25 ∧
    (objGet (NotificationService.subscribeToLocation subs uid ⟨lat, lng, some 0⟩ prefs now)
        uid).map (fun s => NotificationService.getRelevantForecasts [⟨lat, lng⟩] s.location)
      = some [(⟨lat, lng⟩ : NotificationService.ForecastLoc)] := by
  have hd := NotificationService.calculateDistance_self lat lng
  constructor <;>
    simp [NotificationService.subscribeToLocation, objGet_objSet_self,
      NotificationService.jsOrNum, NotificationService.getRelevantForecasts, hd]

/-- Claim C7 (counterexample): the subscriber who subscribed with radius 0
at the origin is NOT excluded — `getRelevantForecasts` matches the
forecast at the origin against the stored subscription, so the radius-0
subscriber does receive location-matched alerts. -/
theorem C7_counterexample :
    (objGet (NotificationService.subscribeToLocation [] "user1" ⟨0, 0, some 0⟩
        ⟨none, none, none, none, none, none⟩ 0) "user1").map
      (fun s => NotificationService.getRelevantForecasts [⟨0, 0⟩] s.location)
      = some [(⟨0, 0⟩ : NotificationService.ForecastLoc)] := by
  have hd := NotificationService.calculateDistance_self 0 0
  simp [NotificationService.subscribeToLocation, objGet_objSet_self,
    NotificationService.jsOrNum, NotificationService.getRelevantForecasts, hd]

/-- Claim C8 (counterexample): re-subscribing an id whose stored
subscription has `lastNotification = some 5` yields a stored
`lastNotification` of `none` — the upsert resets the cooldown timestamp on
update, not only on new insert. -/
theorem C8_counterexample :
    NotificationService.dispatchedSub.lastNotification = some 5 ∧
    (objGet (NotificationService.subscribeToLocation
        [("user1", NotificationService.dispatchedSub)] "user1" ⟨0, 0, some 10⟩
        ⟨none, none, none, none, none, none⟩ 100) "user1").map
      (fun s => s.lastNotification) = some none := by
  refine ⟨rfl, ?_⟩
  simp [NotificationService.subscribeToLocation, objGet_objSet_self]

/-- Claim C8 (amended): `subscribeToLocation` always builds a brand-new
subscription record with `lastNotification: null` and overwrites whatever
was stored, so after ANY subscribe call — first-time or re-subscribe — the
stored `lastNotification` is `none`. -/
theorem C8_always_resets (subs : List (String × NotificationService.Subscription))
    (uid : String) (loc : NotificationService.LocationInput)
    (prefs : NotificationService.PreferencesInput) (now : ℤ) :
    (objGet (NotificationService.subscribeToLocation subs uid loc prefs now) uid).map
      (fun s => s.lastNotification) = some none := by
  simp [NotificationService.subscribeToLocation, objGet_objSet_self]

/-- Claim C9 (counterexample): `testNotification` does NOT bypass the
cooldown. For a subscribed id whose last dispatch was ten minutes before
the call (999400000 ms vs 1000000000 ms), nothing is sent and the state is
unchanged: the synthetic alert goes through `sendAlerts`, which applies
the one-hour cooldown to it like to any other dispatch. -/
theorem C9_counterexample :
    (NotificationService.testNotification [("user1", NotificationService.recentSub)] "user1"
        1000000000).1 = none ∧
    (NotificationService.testNotification [("user1", NotificationService.recentSub)] "user1"
        1000000000).2 = [("user1", NotificationService.recentSub)] :=
  ⟨rfl, rfl⟩

/-- Claim C9 (amended): for a subscribed id the test notification results
in one outbound send of exactly the synthetic info alert PROVIDED the
subscriber is outside the cooldown window (never dispatched, or last
dispatched at least one truncated hour ago). -/
theorem C9_sends_when_cooldown_clear (subs : List (String × NotificationService.Subscription))
    (uid : String) (sub : NotificationService.Subscription) (now : ℤ)
    (hsub : objGet subs uid = some sub)
    (hcool : ∀ t, sub.lastNotification = some t → 1 ≤ jsDiffHours now t) :
    ((NotificationService.testNotification subs uid now).1).map (fun e => e.alerts) =
      some [NotificationService.testAlert now] := by
  simp only [NotificationService.testNotification, hsub]
  unfold NotificationService.sendAlerts
  cases hl : sub.lastNotification with
  | none => simp [hl]
  | some t =>
    have h1 := hcool t hl
    have h2 : ¬ (jsDiffHours now t < 1) := by omega
    simp [hl, h2]

/-- Witness for C9 (amended): a never-dispatched subscriber receives the
synthetic info alert. -/
theorem C9_sends_when_cooldown_clear_witness :
    objGet [("user1", NotificationService.freshSub)] "user1"
      = some NotificationService.freshSub ∧
    (∀ t, NotificationService.freshSub.lastNotification = some t → 1 ≤ jsDiffHours 0 t) ∧
    ((NotificationService.testNotification [("user1", NotificationService.freshSub)] "user1"
        0).1).map (fun e => e.alerts) = some [NotificationService.testAlert 0] := by
  have hsub : objGet [("user1", NotificationService.freshSub)] "user1"
      = some NotificationService.freshSub := rfl
  have hcool : ∀ t, NotificationService.freshSub.lastNotification = some t →
      1 ≤ jsDiffHours 0 t := by
    intro t ht
    simp [NotificationService.freshSub] at ht
  exact ⟨hsub, hcool, C9_sends_when_cooldown_clear _ _ _ _ hsub hcool⟩
